import Mathlib

/-!
Shallow embedding of the record generators of `create_banking_schema.py`.

The script is a sequential, single-threaded data generator: each generator
stage builds a list of records from a pseudo-random stream and batch-inserts
it into a SQLite store.  We embed each stage as a pure Lean function over an
explicit oracle of random draws:

* `random.choice(lst)` / `random.choices(lst, weights)` are modelled by
  `choose`: the oracle supplies a natural-number index, the weighted form is
  modelled by expanding the weight list into a list of repeated elements
  (which has exactly the support and multiplicities of the Python call);
* `random.uniform(a, b)` is modelled by `uniform a b u` with an oracle-supplied
  rational `u`; the Python value lies in `[a, b)` exactly when `0 ≤ u < 1`;
* `random.randint(a, b)` is modelled by `a + n % (b - a + 1)` for an
  oracle-supplied `n`;
* money amounts are embedded as exact rationals (`ℚ`);
* timestamps are embedded as integers: hours for transaction timestamps
  (the script manipulates them via `datetime.timedelta(days, hours)`),
  days for dates (loan/payment schedules step in 30-day increments);
* SQLite surrogate ids: rows of a batch insert receive ids `1, 2, 3, …` in
  insertion order, so the record at 0-based ordinal `i` gets id `i + 1`.
-/

namespace Banking

/-- Model of `random.choice(l)` (and, over an expanded list, of
`random.choices(l, weights)`): the oracle picks the index `i`; indices are
reduced modulo the list length, and `dflt` is only used for the empty list. -/
def choose {α : Type} (l : List α) (dflt : α) (i : ℕ) : α :=
  l.getD (i % l.length) dflt

/-- Model of `random.uniform(a, b)`: `a + (b - a) * u` with `u` drawn from
`[0, 1)`. -/
def uniform (a b u : ℚ) : ℚ :=
  a + (b - a) * u

/-! ## Customer generator (`generate_customers`, lines 219–282)

Modelled fields: the address block (forced to the shared "Johnson" values for
loop ordinals 101, 102, 103), the PEP flag, the risk rating and the annual
income (forced for ordinal 249), plus the free-drawn variants of each.  The
remaining columns (names, dates, hashes, …) are Faker output that no claim
constrains; the oracle supplies them opaquely where kept. -/

/-- Random draws for one iteration of `generate_customers`. -/
structure CustomerDraw where
  houseN : ℕ
  lastNameF : String
  cityF : String
  stateF : String
  addressF : String
  zipF : String
  pepIdx : ℕ
  riskIdx : ℕ
  incomeU : ℚ
  deriving Repr

/-- A generated row of the `customers` table (modelled columns). -/
structure Customer where
  ordinal : ℕ
  last_name : String
  city : String
  state : String
  address : String
  zip_code : String
  is_pep : ℕ
  risk_rating : String
  annual_income : ℚ
  deriving Repr, DecidableEq

/-- Pool of the PEP draw for non-designated customers:
`random.choice([0] * 99 + [1])`. -/
def pep_pool : List ℕ := List.replicate 99 0 ++ [1]

/-- Pool of the risk-rating draw: 70 LOW, 25 MEDIUM and 5 HIGH entries. -/
def risk_pool : List String :=
  List.replicate 70 "LOW" ++ List.replicate 25 "MEDIUM" ++ List.replicate 5 "HIGH"

/-- Loop ordinals of the shared-address ("Johnson") identity cluster:
`if i in [101, 102, 103]` in `generate_customers`. -/
def in_cluster (i : ℕ) : Prop := i = 101 ∨ i = 102 ∨ i = 103

instance (i : ℕ) : Decidable (in_cluster i) := by
  unfold in_cluster; infer_instance

/-- Body of the `generate_customers` loop for ordinal `i`. -/
def mkCustomer (i : ℕ) (d : CustomerDraw) : Customer :=
  let last_name := if in_cluster i then "Johnson" else d.lastNameF
  let city := if in_cluster i then "Miami" else d.cityF
  let state := if in_cluster i then "FL" else d.stateF
  -- a house number in 100..105 followed by Oak Street
  let address := if in_cluster i then toString (100 + d.houseN % 6) ++ " Oak Street"
    else d.addressF
  let zip_code := if in_cluster i then "33101" else d.zipF
  let is_pep := if i = 249 then 1 else choose pep_pool 0 d.pepIdx
  let risk_rating := if i = 249 then "HIGH" else choose risk_pool "LOW" d.riskIdx
  let annual_income := if i = 249 then 15000000 else uniform 25000 250000 d.incomeU
  { ordinal := i, last_name, city, state, address, zip_code,
    is_pep, risk_rating, annual_income }

/-- Model of `generate_customers(count)`: one row per loop ordinal, inserted
in order. -/
def generate_customers (count : ℕ) (oracle : ℕ → CustomerDraw) : List Customer :=
  (List.range count).map fun i => mkCustomer i (oracle i)

/-- SQLite assigns `customer_id = ordinal + 1`; the comment in the script at
ordinal 249 reads: Customer ID will be 250 (1-indexed). -/
def customer_id_of (i : ℕ) : ℕ := i + 1

/-- The customer ids of the identity-cluster members (ordinals 101–103). -/
def cluster_customer_ids : List ℕ :=
  ((List.range 500).filter fun i => decide (in_cluster i)).map customer_id_of

/-! ## Account & ownership generator (`generate_accounts`, lines 324–411) -/

/-- Random draws for one account of one customer. -/
structure AccountDraw where
  bankIdx : ℕ
  typeIdx : ℕ
  balanceU : ℚ
  smallBalU : ℚ
  rateU : ℚ
  overdraftIdx : ℕ

/-- Random draws for the account-loop iteration of one customer:
the account-count draw plus per-account draws. -/
structure CustAccountsDraw where
  numIdx : ℕ
  acct : ℕ → AccountDraw

/-- Pool of the account-count draw:
`random.choices([1, 2, 3, 4], weights=[40, 35, 20, 5])[0]`. -/
def num_accounts_pool : List ℕ :=
  List.replicate 40 1 ++ List.replicate 35 2 ++ List.replicate 20 3 ++
    List.replicate 5 4

/-- Pool of the account-type draw: CHECKING, SAVINGS, MONEY_MARKET, CD. -/
def account_type_pool : List String :=
  ["CHECKING", "SAVINGS", "MONEY_MARKET", "CD"]

/-- A generated row of the `accounts` table (modelled columns). -/
structure Account where
  account_number : ℕ
  account_type : String
  balance : ℚ
  closed_date : Option ℤ
  status : String
  interest_rate : ℚ
  overdraft_limit : ℚ
  deriving Repr, DecidableEq

/-- Body of the inner account loop: customer at enumeration index `i` with id
`customer_id`, account index `j`. -/
def mkAccount (i j customer_id : ℕ) (d : AccountDraw) : Account :=
  let account_type := choose account_type_pool "CHECKING" d.typeIdx
  let balance : ℚ :=
    if customer_id = 250 then
      (if j = 0 then 5000000 else uniform 1000 50000 d.smallBalU)
    else uniform 100 100000 d.balanceU
  let interest_rate : ℚ :=
    if account_type = "SAVINGS" then uniform (1/100) (5/100) d.rateU
    else if account_type = "MONEY_MARKET" then uniform (2/100) (6/100) d.rateU
    else if account_type = "CD" then uniform (3/100) (7/100) d.rateU
    else 0
  { account_number := 1000000000 + i * 10 + j,
    account_type, balance,
    closed_date := none,
    status := "ACTIVE",
    interest_rate,
    overdraft_limit :=
      if account_type = "CHECKING" then choose [0, 500, 1000] 0 d.overdraftIdx
      else 0 }

/-- The account-record loop of `generate_accounts`: for each customer (in id
order) draw an account count and build that many accounts. -/
def generate_accounts (customer_ids : List ℕ) (oracle : ℕ → CustAccountsDraw) :
    List Account :=
  customer_ids.enum.flatMap fun ic =>
    (List.range (choose num_accounts_pool 1 (oracle ic.1).numIdx)).map fun j =>
      mkAccount ic.1 j ic.2 ((oracle ic.1).acct j)

/-- A row of the `account_customers` junction table. -/
structure Ownership where
  account_id : ℕ
  customer_id : ℕ
  relationship_type : String
  deriving Repr, DecidableEq

/-- One PRIMARY ownership row per committed account id, round-robin over the
customer list: `customer_ids[i % len(customer_ids)]`. -/
def primary_rows (account_ids customer_ids : List ℕ) : List Ownership :=
  account_ids.enum.map fun ia =>
    { account_id := ia.2,
      customer_id := customer_ids.getD (ia.1 % customer_ids.length) 0,
      relationship_type := "PRIMARY" }

/-- The list `johnson_customers = [101, 102, 103]` of `generate_accounts`: the customer
ids given JOINT ownership of `account_ids[150]`. -/
def johnson_customers : List ℕ := [101, 102, 103]

/-- The three JOINT ownership rows appended after the PRIMARY rows. -/
def joint_rows (account_ids : List ℕ) : List Ownership :=
  johnson_customers.map fun cust_id =>
    { account_id := account_ids.getD 150 0,
      customer_id := cust_id,
      relationship_type := "JOINT" }

/-! ## Transaction generator (`generate_transactions`, lines 413–528)

Timestamps are in hours.  `now` is the hour of `datetime.datetime.now()`;
`date_code` is the `YYYYMMDD` stamp that the script embeds into every
reference number (`datetime.datetime.now().strftime("%Y%m%d")`).  The input
`accounts` list is the result of
`SELECT account_id, balance FROM accounts WHERE status = "ACTIVE"` and — like
the Python list — is never updated while the loop runs; the script contains
no `UPDATE` statement, so the stored balances are the same list after the
batch insert. -/

/-- Random draws for one iteration of the transaction loop. -/
structure TxnDraw where
  accountIdx : ℕ
  typeIdx : ℕ
  amountU : ℚ
  feeIdx : ℕ
  categoryIdx : ℕ
  merchantIdx : ℕ
  dateU : ℚ
  locIdx : ℕ
  cityF : String

/-- Pool of the transaction-type draw: 15 DEPOSIT, 60 WITHDRAWAL, 20 TRANSFER,
3 FEE and 2 INTEREST entries. -/
def txn_type_pool : List String :=
  List.replicate 15 "DEPOSIT" ++ List.replicate 60 "WITHDRAWAL" ++
    List.replicate 20 "TRANSFER" ++ List.replicate 3 "FEE" ++
    List.replicate 2 "INTEREST"

/-- The `categories` dictionary (insertion order preserved, as in Python). -/
def category_pool : List (String × List String) :=
  [("GROCERIES", ["Whole Foods", "Kroger", "Safeway", "Trader Joes"]),
   ("UTILITIES", ["Electric Company", "Water Department", "Gas Company", "Internet Provider"]),
   ("ENTERTAINMENT", ["Netflix", "Spotify", "AMC Theaters", "Live Nation"]),
   ("DINING", ["Starbucks", "McDonalds", "Chipotle", "Local Restaurant"]),
   ("SHOPPING", ["Amazon", "Target", "Walmart", "Best Buy"]),
   ("TRANSPORTATION", ["Uber", "Shell Gas", "Chevron", "Public Transit"]),
   ("HEALTHCARE", ["CVS Pharmacy", "Walgreens", "Medical Center", "Dental Office"]),
   ("EDUCATION", ["University", "Online Course Platform", "Bookstore"]),
   ("TRAVEL", ["Delta Airlines", "Marriott Hotels", "Airbnb", "Expedia"]),
   ("FINANCIAL", ["ATM Withdrawal", "Wire Transfer", "Investment Transfer"])]

/-- Model of `fake.date_time_between` from minus one year to now, in hours:
some instant of the year (8760 h) before `now`. -/
def fake_datetime_in_past_year (now : ℤ) (u : ℚ) : ℤ :=
  now - 8760 + ⌊8760 * u⌋

/-- Reference number: the TXN tag, then the YYYYMMDD stamp of the current
clock, then the loop index (the script zero-pads the index to six digits;
the padding is irrelevant here and is dropped). -/
def reference_number (date_code i : ℕ) : String :=
  "TXN" ++ toString date_code ++ toString i

/-- A generated row of the `transactions` table (modelled columns). -/
structure Txn where
  account_id : ℕ
  transaction_type : String
  amount : ℚ
  balance_after : ℚ
  transaction_date : ℤ
  category : String
  merchant_name : String
  reference_number : String
  txn_loc : String
  is_flagged : Bool
  deriving Repr, DecidableEq

/-- The structuring-window guard
`i >= 2000 and i <= 2050 and customer_250_accounts`. -/
def in_window (i : ℕ) (c250 : List ℕ) : Prop :=
  2000 ≤ i ∧ i ≤ 2050 ∧ c250 ≠ []

instance (i : ℕ) (c250 : List ℕ) : Decidable (in_window i c250) := by
  unfold in_window; infer_instance

/-- The first account of customer 250: `customer_250_accounts[0]`. -/
def first_account (c250 : List ℕ) : ℕ := c250.headD 0

/-- Body of the `generate_transactions` loop for index `i`.  `accounts` are the
`(account_id, balance)` rows read once before the loop; `c250` is the id list
of the accounts of customer 250.  The first-account lookup
(`for acc_id, bal in accounts: if acc_id == customer_250_accounts[0]`) is
modelled by `List.find?`; the fallback pair `(0, 0)` is outside the id space
and is never hit when the first account is an ACTIVE row. -/
def mkTxn (accounts : List (ℕ × ℚ)) (c250 : List ℕ) (now : ℤ) (date_code i : ℕ)
    (d : TxnDraw) : Txn :=
  let sel : ℕ × ℚ :=
    if in_window i c250 then
      (accounts.find? fun p => p.1 == first_account c250).getD (0, 0)
    else choose accounts (0, 0) d.accountIdx
  let body : String × ℚ × ℤ × String × String × String × Bool :=
    if in_window i c250 ∧ sel.1 = first_account c250 then
      ("WITHDRAWAL",
       uniform 495 499 d.amountU,          -- just under the $500 threshold
       now - (30 * 24 + ((i : ℤ) - 2000)), -- timedelta(days=30, hours=i-2000)
       "FINANCIAL", "ATM Withdrawal",
       choose ["Miami, FL", "New York, NY", "Los Angeles, CA"] "" d.locIdx,
       true)
    else
      let t := choose txn_type_pool "DEPOSIT" d.typeIdx
      let amount : ℚ :=
        if t = "DEPOSIT" then uniform 500 5000 d.amountU
        else if t = "WITHDRAWAL" then uniform 10 500 d.amountU
        else if t = "TRANSFER" then uniform 100 2000 d.amountU
        else if t = "FEE" then choose [5, 10, 15, 25, 35] 5 d.feeIdx
        else uniform (1/100) 50 d.amountU
      let cat : String × List String :=
        if t = "WITHDRAWAL" then choose category_pool ("", []) d.categoryIdx
        else ("FINANCIAL", [])
      let merchant : String :=
        if t = "DEPOSIT" then "Direct Deposit"
        else if t = "WITHDRAWAL" then choose cat.2 "" d.merchantIdx
        else if t = "TRANSFER" then "Internal Transfer"
        else if t = "FEE" then "Bank Fee"
        else "Interest Payment"
      (t, amount, fake_datetime_in_past_year now d.dateU, cat.1, merchant,
       d.cityF, false)
  let balance_after : ℚ :=
    if body.1 = "DEPOSIT" ∨ body.1 = "INTEREST" then sel.2 + body.2.1
    else sel.2 - body.2.1
  { account_id := sel.1,
    transaction_type := body.1,
    amount := body.2.1,
    balance_after,
    transaction_date := body.2.2.1,
    category := body.2.2.2.1,
    merchant_name := body.2.2.2.2.1,
    reference_number := reference_number date_code i,
    txn_loc := body.2.2.2.2.2.1,
    is_flagged := body.2.2.2.2.2.2 }

/-- Model of `generate_transactions(count)`: the batch of rows inserted at the
end of the loop. -/
def generate_transactions (count : ℕ) (accounts : List (ℕ × ℚ)) (c250 : List ℕ)
    (now : ℤ) (date_code : ℕ) (oracle : ℕ → TxnDraw) : List Txn :=
  (List.range count).map fun i => mkTxn accounts c250 now date_code i (oracle i)

/-! ## Loan generator (`generate_loans`, lines 530–617)

Dates are in days; `today` is `datetime.date.today()`. -/

/-- Random draws for the loan of one sampled customer. -/
structure LoanDraw where
  typeIdx : ℕ
  bankIdx : ℕ
  principalU : ℚ
  termIdx : ℕ
  rateU : ℚ
  origDaysAgo : ℕ
  johnsonDelinqN : ℕ
  delinqIdx : ℕ

/-- Pool of the delinquency draw:
`random.choices([0, 0, 0, 0, 15, 30], weights=[70, 10, 10, 5, 3, 2])[0]`. -/
def delinquency_pool : List ℕ :=
  List.replicate 70 0 ++ List.replicate 10 0 ++ List.replicate 10 0 ++
    List.replicate 5 0 ++ List.replicate 3 15 ++ List.replicate 2 30

/-- Line 569–570: the fixed-rate amortization formula,
`monthly_rate = interest_rate / 12`;
`monthly_payment = (P * r * (1+r)**n) / ((1+r)**n - 1)`. -/
def monthly_payment_of (principal interest_rate : ℚ) (term_months : ℕ) : ℚ :=
  let monthly_rate := interest_rate / 12
  (principal * monthly_rate * (1 + monthly_rate) ^ term_months) /
    ((1 + monthly_rate) ^ term_months - 1)

/-- A generated row of the `loans` table (modelled columns). -/
structure Loan where
  customer_id : ℕ
  loan_type : String
  principal_amount : ℚ
  interest_rate : ℚ
  term_months : ℕ
  monthly_payment : ℚ
  remaining_balance : ℚ
  origination_date : ℤ
  maturity_date : ℤ
  status : String
  collateral_value : Option ℚ
  delinquency_days : ℕ
  deriving Repr, DecidableEq

/-- Body of the `generate_loans` loop for one sampled customer row
`(customer_id, credit_score, annual_income)` — the income is read but unused. -/
def mkLoan (customer_id credit_score : ℕ) (today : ℤ) (d : LoanDraw) : Loan :=
  let tierTypes : List String :=
    if credit_score ≥ 750 then ["MORTGAGE", "AUTO", "PERSONAL"]
    else if credit_score ≥ 650 then ["AUTO", "PERSONAL"]
    else ["PERSONAL"]
  let interest_rate_base : ℚ :=
    if credit_score ≥ 750 then 3/100
    else if credit_score ≥ 650 then 5/100
    else 8/100
  let loan_type := choose tierTypes "PERSONAL" d.typeIdx
  let principal : ℚ :=
    if loan_type = "MORTGAGE" then uniform 150000 1000000 d.principalU
    else if loan_type = "AUTO" then uniform 15000 75000 d.principalU
    else uniform 5000 50000 d.principalU
  let term_months : ℕ :=
    if loan_type = "MORTGAGE" then choose [180, 360] 180 d.termIdx
    else if loan_type = "AUTO" then choose [36, 48, 60, 72] 36 d.termIdx
    else choose [12, 24, 36, 48, 60] 12 d.termIdx
  let interest_rate : ℚ :=
    if loan_type = "MORTGAGE" then interest_rate_base + uniform 0 (2/100) d.rateU
    else if loan_type = "AUTO" then interest_rate_base + uniform (1/100) (3/100) d.rateU
    else interest_rate_base + uniform (2/100) (5/100) d.rateU
  let monthly_payment := monthly_payment_of principal interest_rate term_months
  -- fake.date_between, from minus 5 years to minus 6 months
  let origination_date : ℤ := today - d.origDaysAgo
  let maturity_date : ℤ := origination_date + term_months * 30
  let johnson : Prop := customer_id = 101 ∨ customer_id = 102 ∨ customer_id = 103
  let delinquency_days : ℕ :=
    if johnson then 30 + d.johnsonDelinqN % 61    -- random.randint(30, 90)
    else choose delinquency_pool 0 d.delinqIdx
  let status : String :=
    if johnson then (if delinquency_days > 60 then "DEFAULTED" else "ACTIVE")
    else (if delinquency_days < 60 then "ACTIVE" else "DEFAULTED")
  let remaining_balance : ℚ :=
    if johnson then principal * (85/100)
    else
      let months_elapsed : ℤ := (today - origination_date).fdiv 30
      if months_elapsed > 0 then
        let payments_made : ℚ := min (months_elapsed : ℚ) ((term_months : ℚ) * (3/10))
        principal * (1 - payments_made / (term_months : ℚ))
      else principal
  { customer_id, loan_type, principal_amount := principal, interest_rate,
    term_months, monthly_payment, remaining_balance, origination_date,
    maturity_date, status,
    collateral_value :=
      if loan_type = "MORTGAGE" ∨ loan_type = "AUTO" then some (principal * (12/10))
      else none,
    delinquency_days }

/-- Model of `generate_loans`: one loan per sampled customer (the sample of 200 rows of
`customers` is itself a random draw; the list is taken as input here). -/
def generate_loans (sampled : List (ℕ × ℕ)) (today : ℤ) (oracle : ℕ → LoanDraw) :
    List Loan :=
  sampled.enum.map fun kc => mkLoan kc.2.1 kc.2.2 today (oracle kc.1)

/-! ## Payment generator (`generate_payments`, lines 619–687) -/

/-- The loan row read back by the payments query:
`SELECT loan_id, monthly_payment, origination_date, status, customer_id`. -/
structure LoanRow where
  loan_id : ℕ
  monthly_payment : ℚ
  origination_date : ℤ
  status : String
  customer_id : ℕ
  deriving Repr, DecidableEq

/-- Random draws for one scheduled month of one loan. -/
structure PayDraw where
  skipU : ℚ
  lateN : ℕ
  partialU : ℚ
  daysLateIdx : ℕ
  methodIdx : ℕ
  deriving Repr

/-- Pool of the days-late draw:
`random.choices([0, 0, 0, 3, 7, 15], weights=[70, 10, 10, 5, 3, 2])[0]`. -/
def days_late_pool : List ℕ :=
  List.replicate 70 0 ++ List.replicate 10 0 ++ List.replicate 10 0 ++
    List.replicate 5 3 ++ List.replicate 3 7 ++ List.replicate 2 15

/-- The fixed reason attached to the designated reversed payment. -/
def reversal_reason_text : String :=
  "Insufficient funds - payment reversed after 3 days"

/-- A generated row of the `payments` table (modelled columns). -/
structure Payment where
  loan_id : ℕ
  payment_date : ℤ
  scheduled_date : ℤ
  amount : ℚ
  principal_paid : ℚ
  interest_paid : ℚ
  late_fee : ℚ
  is_reversed : Bool
  reversal_reason : Option String
  deriving Repr, DecidableEq

/-- Body of the month loop of `generate_payments`; `none` models the
`continue` that skips an identity-cluster payment. -/
def mkPayment (L : LoanRow) (month : ℕ) (d : PayDraw) : Option Payment :=
  let scheduled_date := L.origination_date + 30 * (month : ℤ)
  let johnson : Prop :=
    L.customer_id = 101 ∨ L.customer_id = 102 ∨ L.customer_id = 103
  let core : Option (ℤ × ℚ × ℚ) :=
    if johnson ∧ month > 12 then
      if d.skipU > 1/2 then none                 -- skip 50% of payments
      else some (scheduled_date + (15 + (d.lateN % 31 : ℕ) : ℤ),  -- randint(15, 45)
        L.monthly_payment * uniform (5/10) (8/10) d.partialU,     -- partial payment
        50)
    else
      let days_late := choose days_late_pool 0 d.daysLateIdx
      some (scheduled_date + (days_late : ℤ), L.monthly_payment,
        if days_late > 5 then 25 else 0)
  core.map fun c =>
    let amount := c.2.1
    let late_fee := c.2.2
    let reversed : Prop := L.loan_id = 150 ∧ month = 15
    { loan_id := L.loan_id,
      payment_date := c.1,
      scheduled_date, amount,
      principal_paid := amount * (7/10) - late_fee,
      interest_paid := amount * (3/10),
      late_fee,
      is_reversed := decide reversed,
      reversal_reason := if reversed then some reversal_reason_text else none }

/-- The payment schedule of one loan:
`for month in range(min(months_since_origination, 36))` where
`months_since_origination = (today - origination_date).days // 30`. -/
def loan_payments (L : LoanRow) (today : ℤ) (dr : ℕ → PayDraw) : List Payment :=
  let months_since := ((today - L.origination_date).fdiv 30).toNat
  (List.range (min months_since 36)).filterMap fun month =>
    mkPayment L month (dr month)

/-- Model of `generate_payments`: schedules for every loan whose status is
ACTIVE or DEFAULTED, concatenated in query order. -/
def generate_payments (loans : List LoanRow) (today : ℤ)
    (oracle : ℕ → ℕ → PayDraw) : List Payment :=
  ((loans.filter fun L =>
      L.status == "ACTIVE" || L.status == "DEFAULTED").enum).flatMap
    fun kL => loan_payments kL.2 today (oracle kL.1)

/-! ## Concrete oracle values used by witnesses and counterexamples -/

/-- A customer draw whose PEP index hits the single 1-entry of `pep_pool` and
whose risk index hits a HIGH entry of `risk_pool` — a possible outcome of the
1 % and 5 % draws. -/
def unluckyCustomerDraw : CustomerDraw :=
  { houseN := 0, lastNameF := "Smith", cityF := "Austin", stateF := "TX",
    addressF := "1 Elm Street", zipF := "73301", pepIdx := 99, riskIdx := 99,
    incomeU := 0 }

/-- A transaction draw selecting the first account and a WITHDRAWAL
(index 15 of `txn_type_pool`) of the minimal amount. -/
def withdrawalDraw : TxnDraw :=
  { accountIdx := 0, typeIdx := 15, amountU := 0, feeIdx := 0,
    categoryIdx := 0, merchantIdx := 0, dateU := 0, locIdx := 0,
    cityF := "Austin" }

/-- A transaction draw with mid-band amount, used inside the structuring
window. -/
def windowDraw : TxnDraw :=
  { accountIdx := 0, typeIdx := 0, amountU := 1/2, feeIdx := 0,
    categoryIdx := 0, merchantIdx := 0, dateU := 0, locIdx := 0,
    cityF := "Austin" }

/-- The all-zero account-loop draw. -/
def zeroCustAccountsDraw : CustAccountsDraw :=
  { numIdx := 0,
    acct := fun _ =>
      { bankIdx := 0, typeIdx := 0, balanceU := 0, smallBalU := 0, rateU := 0,
        overdraftIdx := 0 } }

/-- The all-zero loan draw. -/
def zeroLoanDraw : LoanDraw :=
  { typeIdx := 0, bankIdx := 0, principalU := 0, termIdx := 0, rateU := 0,
    origDaysAgo := 0, johnsonDelinqN := 0, delinqIdx := 0 }

/-- The all-zero payment draw: on-time, never skipped. -/
def onTimePayDraw : PayDraw :=
  { skipU := 0, lateN := 0, partialU := 0, daysLateIdx := 0, methodIdx := 0 }

/-- A loan row with id 150 originated 481 days before generation, so its
schedule has 16 months and reaches the designated month 15. -/
def loanRow150 : LoanRow :=
  { loan_id := 150, monthly_payment := 1000, origination_date := -481,
    status := "ACTIVE", customer_id := 1 }

/-- A loan row with id 150 originated only 200 days before generation (well
inside the -5y..-6m range of `fake.date_between`), so its schedule has only
6 months and never reaches month 15. -/
def loanRow150Short : LoanRow :=
  { loan_id := 150, monthly_payment := 1000, origination_date := -200,
    status := "ACTIVE", customer_id := 1 }

/-- The month-15 payment of `loanRow150` under `onTimePayDraw`: the unique
reversed payment of that schedule. -/
def reversedPayment : Payment :=
  { loan_id := 150, payment_date := -31, scheduled_date := -31, amount := 1000,
    principal_paid := 700, interest_paid := 300, late_fee := 0,
    is_reversed := true, reversal_reason := some reversal_reason_text }

/-! ## Helper lemmas -/

/-- An element read with a default is in the list or is the default. -/
theorem getD_mem_or_eq {α : Type} (l : List α) (k : ℕ) (d : α) :
    l.getD k d ∈ l ∨ l.getD k d = d := by
  induction l generalizing k with
  | nil => simp
  | cons a t ih =>
    cases k with
    | zero => simp
    | succ n =>
      rcases ih n with h | h
      · exact Or.inl (List.mem_cons_of_mem _ h)
      · rw [List.getD_cons_succ, h]
        exact Or.inr rfl

/-- A chosen element is in the pool or is the default. -/
theorem choose_mem_or_eq {α : Type} (l : List α) (d : α) (i : ℕ) :
    choose l d i ∈ l ∨ choose l d i = d :=
  getD_mem_or_eq l (i % l.length) d

/-- A uniform draw with a unit draw in [0, 1) lies in [a, b). -/
theorem uniform_mem {a b u : ℚ} (hab : a < b) (h0 : 0 ≤ u) (h1 : u < 1) :
    a ≤ uniform a b u ∧ uniform a b u < b := by
  unfold uniform
  constructor
  · nlinarith
  · nlinarith

/-- Every entry of the delinquency pool of non-cluster loans is at most 30. -/
theorem delinquency_pool_le (i : ℕ) : choose delinquency_pool 0 i ≤ 30 := by
  rcases choose_mem_or_eq delinquency_pool 0 i with h | h
  · have hall : ∀ x ∈ delinquency_pool, x ≤ 30 := by decide
    exact hall _ h
  · simp [h]

/-- Index 99 of the PEP pool is the single 1-entry. -/
theorem pep_pool_at_99 : choose pep_pool 0 99 = 1 := by decide

/-- Index 99 of the risk pool is a HIGH entry. -/
theorem risk_pool_at_99 : choose risk_pool "LOW" 99 = "HIGH" := by decide

/-! ## C10 — every account is generated ACTIVE with no closed date -/

/-- C10: `generate_accounts` writes every account with status ACTIVE and a
null closed date, so the ACTIVE filter of `generate_transactions` selects the
entire account population. -/
theorem c10_all_accounts_active :
    (∀ (customer_ids : List ℕ) (oracle : ℕ → CustAccountsDraw),
      (generate_accounts customer_ids oracle).filter
          (fun a => a.status == "ACTIVE") =
        generate_accounts customer_ids oracle) ∧
    (∀ (i j customer_id : ℕ) (d : AccountDraw),
      (mkAccount i j customer_id d).status = "ACTIVE" ∧
      (mkAccount i j customer_id d).closed_date = none) := by
  constructor
  · intro customer_ids oracle
    rw [List.filter_eq_self]
    intro a ha
    simp only [generate_accounts, List.mem_flatMap, List.mem_map] at ha
    obtain ⟨ic, _, j, _, rfl⟩ := ha
    rfl
  · intro i j customer_id d
    exact ⟨rfl, rfl⟩

/-! ## C9 — payment components reconcile exactly -/

/-- C9: every payment row emitted by the month loop of `generate_payments`
satisfies `principal_paid + interest_paid + late_fee = amount`, in the
identity-cluster branch and in the normal branch alike (the interest share is
30 % of the amount and the principal share is 70 % minus the late fee). -/
theorem c9_payment_components (L : LoanRow) (month : ℕ) (d : PayDraw)
    (p : Payment) (h : mkPayment L month d = some p) :
    p.principal_paid + p.interest_paid + p.late_fee = p.amount := by
  simp only [mkPayment, Option.map_eq_some'] at h
  obtain ⟨c, _, rfl⟩ := h
  show c.2.1 * (7/10) - c.2.2 + c.2.1 * (3/10) + c.2.2 = c.2.1
  ring

/-- Index 0 of the days-late pool is an on-time entry. -/
theorem days_late_pool_at_0 : choose days_late_pool 0 0 = 0 := by decide

/-- Evaluation of the month-15 payment of `loanRow150` under the on-time
draw: it is the reversed payment. -/
theorem mkPayment_eval_15 :
    mkPayment loanRow150 15 onTimePayDraw = some reversedPayment := by
  norm_num [mkPayment, loanRow150, onTimePayDraw, reversedPayment,
    days_late_pool_at_0, reversal_reason_text]

/-- Witness for C9 at a concrete payment of loan 150. -/
theorem c9_payment_components_witness :
    reversedPayment.principal_paid + reversedPayment.interest_paid +
      reversedPayment.late_fee = reversedPayment.amount :=
  c9_payment_components loanRow150 15 onTimePayDraw reversedPayment
    mkPayment_eval_15

/-! ## C8 — loan status is DEFAULTED exactly above 60 delinquency days -/

/-- C8: every loan built by `generate_loans` has status DEFAULTED if and only
if its delinquency days exceed 60, and has status ACTIVE otherwise — in the
identity-cluster branch (delinquency drawn in 30..90) and in the normal
branch (delinquency drawn from the pool, hence at most 30) alike. -/
theorem c8_status_iff_delinquency (customer_id credit_score : ℕ) (today : ℤ)
    (d : LoanDraw) :
    ((mkLoan customer_id credit_score today d).status = "DEFAULTED" ↔
      60 < (mkLoan customer_id credit_score today d).delinquency_days) ∧
    ((mkLoan customer_id credit_score today d).status = "DEFAULTED" ∨
      (mkLoan customer_id credit_score today d).status = "ACTIVE") := by
  have hpool := delinquency_pool_le d.delinqIdx
  by_cases hj : customer_id = 101 ∨ customer_id = 102 ∨ customer_id = 103
  · have hdel : (mkLoan customer_id credit_score today d).delinquency_days =
        30 + d.johnsonDelinqN % 61 := by
      simp [mkLoan, hj]
    have hstat : (mkLoan customer_id credit_score today d).status =
        if 30 + d.johnsonDelinqN % 61 > 60 then "DEFAULTED" else "ACTIVE" := by
      simp [mkLoan, hj]
    rw [hdel, hstat]
    by_cases hd : 30 + d.johnsonDelinqN % 61 > 60
    · rw [if_pos hd]
      exact ⟨⟨fun _ => hd, fun _ => rfl⟩, Or.inl rfl⟩
    · rw [if_neg hd]
      exact ⟨⟨fun hs => absurd hs (by decide), fun hlt => absurd hlt hd⟩,
        Or.inr rfl⟩
  · have hdel : (mkLoan customer_id credit_score today d).delinquency_days =
        choose delinquency_pool 0 d.delinqIdx := by
      simp [mkLoan, hj]
    have hstat : (mkLoan customer_id credit_score today d).status =
        if choose delinquency_pool 0 d.delinqIdx < 60 then "ACTIVE"
        else "DEFAULTED" := by
      simp [mkLoan, hj]
    rw [hdel, hstat, if_pos (by omega : choose delinquency_pool 0 d.delinqIdx < 60)]
    exact ⟨⟨fun hs => absurd hs (by decide), fun hgt => absurd hgt (by omega)⟩,
      Or.inr rfl⟩

/-! ## C3 — amortization formula -/

/-- C3: every generated loan stores
`monthly_payment = P * r * (1+r)^n / ((1+r)^n - 1)` with `r` the stored annual
rate over 12 and `n` the stored term, and the concrete MORTGAGE instance
(P = 300000, annual rate 0.045, n = 360) evaluates within 0.01 of 1520.06. -/
theorem c3_amortization :
    (∀ (customer_id credit_score : ℕ) (today : ℤ) (d : LoanDraw),
      (mkLoan customer_id credit_score today d).monthly_payment =
        monthly_payment_of
          (mkLoan customer_id credit_score today d).principal_amount
          (mkLoan customer_id credit_score today d).interest_rate
          (mkLoan customer_id credit_score today d).term_months) ∧
    (1520.05 ≤ monthly_payment_of 300000 0.045 360 ∧
      monthly_payment_of 300000 0.045 360 ≤ 1520.07) := by
  refine ⟨fun customer_id credit_score today d => rfl, ?_, ?_⟩
  · norm_num [monthly_payment_of]
  · norm_num [monthly_payment_of]

/-! ## C5 — the designated PEP/HIGH outlier -/

/-- Counterexample to C5: uniqueness of the PEP-and-HIGH combination is not
enforced by the generator.  Under a random stream in which every iteration
draws the 1-in-100 PEP entry and a HIGH risk entry — each a possible outcome
of `random.choice` — all 500 customers carry both flags, so the count is 500,
not 1. -/
theorem c5_counterexample :
    ((generate_customers 500 fun _ => unluckyCustomerDraw).countP
        (fun c => c.is_pep == 1 && c.risk_rating == "HIGH")) = 500 ∧
    (500 : ℕ) ≠ 1 := by
  constructor
  · have hlen : (generate_customers 500 fun _ => unluckyCustomerDraw).length = 500 := by
      simp [generate_customers]
    have hall : ∀ c ∈ generate_customers 500 fun _ => unluckyCustomerDraw,
        (c.is_pep == 1 && c.risk_rating == "HIGH") = true := by
      intro c hc
      simp only [generate_customers, List.mem_map, List.mem_range] at hc
      obtain ⟨i, _, rfl⟩ := hc
      by_cases h : i = 249
      · simp [mkCustomer, h]
      · simp [mkCustomer, h, unluckyCustomerDraw, pep_pool_at_99, risk_pool_at_99]
    rw [List.countP_eq_length.mpr hall, hlen]
  · decide

/-- C5 (amended): the customer at ordinal 249 is forced to PEP = 1, risk HIGH
and income 15000000 on every run; for any other ordinal the two flags hold
exactly when the PEP draw hits the single 1-entry of the 1 % pool and the
risk draw hits a HIGH entry of the 70/25/5 pool, so a second such customer is
possible but not forced. -/
theorem c5_designated_outlier (oracle : ℕ → CustomerDraw) (i : ℕ) :
    ((mkCustomer 249 (oracle 249)).is_pep = 1 ∧
     (mkCustomer 249 (oracle 249)).risk_rating = "HIGH" ∧
     (mkCustomer 249 (oracle 249)).annual_income = 15000000) ∧
    (i ≠ 249 →
      ((mkCustomer i (oracle i)).is_pep = 1 ↔
        choose pep_pool 0 (oracle i).pepIdx = 1) ∧
      ((mkCustomer i (oracle i)).risk_rating = "HIGH" ↔
        choose risk_pool "LOW" (oracle i).riskIdx = "HIGH")) := by
  constructor
  · exact ⟨by simp [mkCustomer], by simp [mkCustomer], by simp [mkCustomer]⟩
  · intro hi
    constructor
    · simp [mkCustomer, hi]
    · simp [mkCustomer, hi]

/-- Witness for C5 (amended) at ordinal 0 with the concrete unlucky draw. -/
theorem c5_designated_outlier_witness :
    (mkCustomer 249 unluckyCustomerDraw).is_pep = 1 ∧
    ((mkCustomer 0 unluckyCustomerDraw).is_pep = 1 ↔
      choose pep_pool 0 unluckyCustomerDraw.pepIdx = 1) := by
  have h := c5_designated_outlier (fun _ => unluckyCustomerDraw) 0
  exact ⟨h.1.1, (h.2 (by decide)).1⟩

/-! ## C2 — the structuring window -/

/-- C2: for every loop index in the window 2000–2050 (inclusive), provided
customer 250 has at least one account and its first account is among the
ACTIVE balance rows, the generated transaction hits that first account and is
a flagged WITHDRAWAL with amount in [495, 499), timestamped 30 days plus
(i - 2000) hours before generation time — across the window a band of 51
consecutive hours; every index outside the window yields an unflagged
transaction. -/
theorem c2_structuring_window (accounts : List (ℕ × ℚ)) (c250 : List ℕ)
    (now : ℤ) (date_code i : ℕ) (d : TxnDraw)
    (hne : c250 ≠ []) (hmem : ∃ b, (first_account c250, b) ∈ accounts)
    (h0 : 0 ≤ d.amountU) (h1 : d.amountU < 1) :
    (2000 ≤ i → i ≤ 2050 →
      (mkTxn accounts c250 now date_code i d).account_id = first_account c250 ∧
      (mkTxn accounts c250 now date_code i d).transaction_type = "WITHDRAWAL" ∧
      (mkTxn accounts c250 now date_code i d).is_flagged = true ∧
      495 ≤ (mkTxn accounts c250 now date_code i d).amount ∧
      (mkTxn accounts c250 now date_code i d).amount < 499 ∧
      (mkTxn accounts c250 now date_code i d).transaction_date =
        now - (30 * 24 + ((i : ℤ) - 2000))) ∧
    (¬ (2000 ≤ i ∧ i ≤ 2050) →
      (mkTxn accounts c250 now date_code i d).is_flagged = false) := by
  constructor
  · intro h2000 h2050
    have hw : in_window i c250 := ⟨h2000, h2050, hne⟩
    obtain ⟨b, hb⟩ := hmem
    have hsome : (accounts.find? fun p => p.1 == first_account c250).isSome := by
      rw [List.find?_isSome]
      exact ⟨_, hb, by simp⟩
    obtain ⟨a, ha⟩ := Option.isSome_iff_exists.mp hsome
    have ha1 : a.1 = first_account c250 := by
      have := List.find?_some ha
      simpa using this
    have hu := uniform_mem (by norm_num : (495 : ℚ) < 499) h0 h1
    refine ⟨?_, ?_, ?_, ?_, ?_, ?_⟩ <;>
      simp [mkTxn, hw, ha, ha1, hu.1, hu.2]
  · intro hno
    have hnw : ¬ in_window i c250 := fun hw => hno ⟨hw.1, hw.2.1⟩
    simp [mkTxn, hnw]

/-- Witness for C2 at window index 2015 with a mid-band draw. -/
theorem c2_structuring_window_witness :
    (mkTxn [(1, 100)] [1] 0 20240101 2015 windowDraw).transaction_type =
      "WITHDRAWAL" ∧
    (mkTxn [(1, 100)] [1] 0 20240101 2015 windowDraw).is_flagged = true ∧
    495 ≤ (mkTxn [(1, 100)] [1] 0 20240101 2015 windowDraw).amount ∧
    (mkTxn [(1, 100)] [1] 0 20240101 2015 windowDraw).amount < 499 := by
  have h := c2_structuring_window [(1, 100)] [1] 0 20240101 2015 windowDraw
    (by decide) ⟨100, by simp [first_account]⟩ (by norm_num [windowDraw])
    (by norm_num [windowDraw])
  have h2 := h.1 (by norm_num) (by norm_num)
  exact ⟨h2.2.1, h2.2.2.1, h2.2.2.2.1, h2.2.2.2.2.1⟩

/-! ## C6 — ownership rows and the identity cluster (code bug) -/

set_option maxRecDepth 4000 in
/-- C6 (code bug): the PRIMARY pass emits exactly one PRIMARY row per
committed account (mapping the rows to their account ids returns the account
id list itself), and the JOINT pass emits exactly three JOINT rows on
`account_ids[150]` — but those rows bind customer ids 101, 102 and 103, while
the identity-cluster customers (generated at loop ordinals 101–103, e.g. the
forced Johnson surname at ordinal 103) receive ids 102, 103 and 104.  The
cluster member with id 104 gets no JOINT row and the non-cluster customer 101
gets one. -/
theorem c6_joint_rows_vs_cluster :
    cluster_customer_ids = [102, 103, 104] ∧
    (∀ account_ids : List ℕ,
      (joint_rows account_ids).map Ownership.customer_id = johnson_customers ∧
      (joint_rows account_ids).map Ownership.customer_id ≠
        cluster_customer_ids) ∧
    (∀ d : CustomerDraw, (mkCustomer 103 d).last_name = "Johnson") ∧
    customer_id_of 103 = 104 ∧
    (∀ account_ids customer_ids : List ℕ,
      (primary_rows account_ids customer_ids).map Ownership.account_id =
        account_ids) := by
  have hclu : cluster_customer_ids = [102, 103, 104] := by decide
  refine ⟨hclu, fun account_ids => ⟨rfl, ?_⟩,
    fun d => by simp [mkCustomer, in_cluster], rfl,
    fun account_ids customer_ids => ?_⟩
  · have h1 : (joint_rows account_ids).map Ownership.customer_id =
        [101, 102, 103] := rfl
    rw [h1, hclu]
    decide
  · unfold primary_rows
    rw [List.map_map]
    exact List.enumFrom_map_snd 0 account_ids

/-! ## C1 — running balance is never updated (code bug) -/

/-- Index 15 of the transaction-type pool is a WITHDRAWAL entry. -/
theorem txn_type_at_15 : choose txn_type_pool "DEPOSIT" 15 = "WITHDRAWAL" := by
  decide

/-- Selecting index 0 from the singleton balance list: the account id. -/
theorem choose_pair_fst :
    (choose [((1 : ℕ), (100 : ℚ))] 0 0).1 = 1 := rfl

/-- Selecting index 0 from the singleton balance list: the balance. -/
theorem choose_pair_snd :
    (choose [((1 : ℕ), (100 : ℚ))] 0 0).2 = 100 := rfl

/-- C1 (code bug): with a single ACTIVE account of stored balance 100 and two
consecutive WITHDRAWAL transactions of amount 10 against it, both rows are
written with `balance_after = 90`: each is computed from the balance read
before the loop (the script never updates the `accounts` rows — it contains
no UPDATE statement — and the in-memory list is never rewritten), so the
second row is not 80, and the `balance_after` of the chronologically last
transaction (90) differs from the stored balance (100). -/
theorem c1_stale_running_balance :
    ((generate_transactions 2 [(1, 100)] [] 0 20240101 fun _ => withdrawalDraw).map
        Txn.balance_after = [90, 90]) ∧
    ((generate_transactions 2 [(1, 100)] [] 0 20240101 fun _ => withdrawalDraw).map
        Txn.account_id = [1, 1]) ∧
    (90 : ℚ) ≠ 100 := by
  refine ⟨?_, ?_, by norm_num⟩ <;>
    (simp +decide [generate_transactions, List.range_succ, mkTxn, in_window,
      withdrawalDraw, txn_type_at_15, choose_pair_fst, choose_pair_snd,
      uniform] <;> norm_num)

/-! ## C4 — determinism (corrected: the clock is an extra input) -/

/-- Counterexample to C4: two runs with the same random stream and the same
parameters but started at different clock instants (here 24 hours apart)
produce different transaction rows — the timestamp drawn relative to now and
the date stamp inside the reference number differ — so byte-identicality does
not follow from seed and parameters alone. -/
theorem c4_clock_counterexample :
    generate_transactions 1 [(1, 100)] [] 0 20240101 (fun _ => withdrawalDraw) ≠
      generate_transactions 1 [(1, 100)] [] 24 20240102
        (fun _ => withdrawalDraw) := by
  intro h
  have h2 := congrArg (List.map Txn.transaction_date) h
  simp +decide [generate_transactions, List.range_succ, mkTxn, in_window,
    withdrawalDraw, fake_datetime_in_past_year] at h2

/-- C4 (amended): every generator stage of the embedding is a pure function
of its random stream, its parameters and the clock inputs, so two runs that
agree on the seed-determined stream, the parameters and the generation
instant produce identical record lists for every entity kind. -/
theorem c4_determinism_amended
    (count n : ℕ) (accounts : List (ℕ × ℚ)) (c250 : List ℕ)
    (customer_ids : List ℕ) (sampled : List (ℕ × ℕ)) (loans : List LoanRow)
    (now now2 today today2 : ℤ) (date_code date_code2 : ℕ)
    (oc oc2 : ℕ → CustomerDraw) (oa oa2 : ℕ → CustAccountsDraw)
    (ot ot2 : ℕ → TxnDraw) (ol ol2 : ℕ → LoanDraw) (op op2 : ℕ → ℕ → PayDraw)
    (hnow : now = now2) (hdc : date_code = date_code2)
    (htoday : today = today2)
    (hoc : ∀ i, oc i = oc2 i) (hoa : ∀ i, oa i = oa2 i)
    (hot : ∀ i, ot i = ot2 i) (hol : ∀ i, ol i = ol2 i)
    (hop : ∀ k m, op k m = op2 k m) :
    generate_customers n oc = generate_customers n oc2 ∧
    generate_accounts customer_ids oa = generate_accounts customer_ids oa2 ∧
    generate_transactions count accounts c250 now date_code ot =
      generate_transactions count accounts c250 now2 date_code2 ot2 ∧
    generate_loans sampled today ol = generate_loans sampled today2 ol2 ∧
    generate_payments loans today op = generate_payments loans today2 op2 := by
  have hoc' : oc = oc2 := funext hoc
  have hoa' : oa = oa2 := funext hoa
  have hot' : ot = ot2 := funext hot
  have hol' : ol = ol2 := funext hol
  have hop' : op = op2 := funext fun k => funext fun m => hop k m
  subst hnow hdc htoday hoc' hoa' hot' hol' hop'
  exact ⟨rfl, rfl, rfl, rfl, rfl⟩

/-- Witness for C4 (amended) at concrete equal inputs. -/
theorem c4_determinism_amended_witness :
    generate_transactions 1 [(1, 100)] [] 0 20240101 (fun _ => withdrawalDraw) =
      generate_transactions 1 [(1, 100)] [] 0 20240101
        (fun _ => withdrawalDraw) :=
  (c4_determinism_amended 1 1 [(1, 100)] [] [] [] [] 0 0 0 0 20240101 20240101
    (fun _ => unluckyCustomerDraw) (fun _ => unluckyCustomerDraw)
    (fun _ => zeroCustAccountsDraw) (fun _ => zeroCustAccountsDraw)
    (fun _ => withdrawalDraw) (fun _ => withdrawalDraw)
    (fun _ => zeroLoanDraw) (fun _ => zeroLoanDraw)
    (fun _ _ => onTimePayDraw) (fun _ _ => onTimePayDraw)
    rfl rfl rfl (fun _ => rfl) (fun _ => rfl) (fun _ => rfl) (fun _ => rfl)
    (fun _ _ => rfl)).2.2.1

/-! ## C7 — the designated payment reversal -/

/-- Field characterization of any payment emitted by the month loop: it
carries the loan id, the 30-day schedule, and it is reversed — with the fixed
reason — exactly for loan 150 at month 15. -/
theorem mkPayment_fields {L : LoanRow} {month : ℕ} {d : PayDraw} {p : Payment}
    (h : mkPayment L month d = some p) :
    p.loan_id = L.loan_id ∧
    p.scheduled_date = L.origination_date + 30 * (month : ℤ) ∧
    (p.is_reversed = true ↔ L.loan_id = 150 ∧ month = 15) ∧
    p.reversal_reason =
      (if L.loan_id = 150 ∧ month = 15 then some reversal_reason_text
       else none) := by
  simp only [mkPayment, Option.map_eq_some'] at h
  obtain ⟨c, -, rfl⟩ := h
  exact ⟨rfl, rfl, by simp, rfl⟩

/-- A month index occurs at most once in a range. -/
theorem countP_range_le_one (n k : ℕ) :
    (List.range n).countP (fun m => m == k) ≤ 1 := by
  have h := List.nodup_iff_count_le_one.mp (List.nodup_range n) k
  rw [List.count_eq_countP] at h
  exact h

/-- At most one payment of a single loan schedule is reversed. -/
theorem loan_payments_rev_le_one (L : LoanRow) (today : ℤ) (dr : ℕ → PayDraw) :
    (loan_payments L today dr).countP (fun p => p.is_reversed) ≤ 1 := by
  unfold loan_payments
  rw [List.countP_filterMap]
  refine le_trans (List.countP_mono_left fun m _ hm => ?_)
    (countP_range_le_one _ 15)
  cases hp : mkPayment L m (dr m) with
  | none => rw [hp] at hm; simp at hm
  | some p =>
    rw [hp] at hm
    simp only [Option.map_some', Option.getD_some] at hm
    have h15 := ((mkPayment_fields hp).2.2.1.mp hm).2
    simp [h15]

/-- A loan other than 150 contributes no reversed payment. -/
theorem loan_payments_rev_zero {L : LoanRow} (hL : L.loan_id ≠ 150)
    (today : ℤ) (dr : ℕ → PayDraw) :
    (loan_payments L today dr).countP (fun p => p.is_reversed) = 0 := by
  rw [List.countP_eq_zero]
  intro p hp
  simp only [loan_payments, List.mem_filterMap, List.mem_range] at hp
  obtain ⟨m, -, hm⟩ := hp
  intro hrev
  exact hL ((mkPayment_fields hm).2.2.1.mp hrev).1

/-- A batch of schedules of loans all different from 150 has no reversed
payment. -/
theorem flat_rev_zero (today : ℤ) (oracle : ℕ → ℕ → PayDraw) :
    ∀ ls : List (ℕ × LoanRow), (∀ kL ∈ ls, kL.2.loan_id ≠ 150) →
      ((ls.flatMap fun kL => loan_payments kL.2 today (oracle kL.1)).countP
        (fun p => p.is_reversed)) = 0 := by
  intro ls
  induction ls with
  | nil => simp
  | cons a t ih =>
    intro h
    rw [List.flatMap_cons, List.countP_append,
      loan_payments_rev_zero (h a (List.mem_cons_self a t)) today (oracle a.1),
      ih fun kL hk => h kL (List.mem_cons_of_mem _ hk)]

/-- A batch of schedules in which loan id 150 occurs at most once has at most
one reversed payment. -/
theorem flat_rev_le_one (today : ℤ) (oracle : ℕ → ℕ → PayDraw) :
    ∀ ls : List (ℕ × LoanRow),
      ls.countP (fun kL => kL.2.loan_id == 150) ≤ 1 →
      ((ls.flatMap fun kL => loan_payments kL.2 today (oracle kL.1)).countP
        (fun p => p.is_reversed)) ≤ 1 := by
  intro ls
  induction ls with
  | nil => simp
  | cons a t ih =>
    intro h
    rw [List.flatMap_cons, List.countP_append]
    by_cases ha : a.2.loan_id = 150
    · have h1 : t.countP (fun kL => kL.2.loan_id == 150) = 0 := by
        rw [List.countP_cons_of_pos _ _ (by simp [ha])] at h
        omega
      have h2 : ∀ kL ∈ t, kL.2.loan_id ≠ 150 := by
        rw [List.countP_eq_zero] at h1
        intro kL hk he
        exact h1 kL hk (by simp [he])
      rw [flat_rev_zero today oracle t h2]
      have := loan_payments_rev_le_one a.2 today (oracle a.1)
      omega
    · rw [loan_payments_rev_zero ha today (oracle a.1)]
      have ht : t.countP (fun kL => kL.2.loan_id == 150) ≤ 1 := by
        rw [List.countP_cons_of_neg _ _ (by simp [ha])] at h
        exact h
      simpa using ih ht

/-- C7 (amended): the whole payment table contains at most one reversed row
(given that loan id 150 occurs at most once among the loans, as it does for
SQLite surrogate ids); a payment row is reversed exactly when it belongs to
loan 150 at scheduled month 15 (scheduled date = origination + 450 days), a
reversed row carries the fixed non-null reversal reason, and every other row
has a null reason.  Whether the reversed row exists at all depends on loan
150 reaching month 15 — see the counterexample. -/
theorem c7_reversal_amended (loans : List LoanRow) (today : ℤ)
    (oracle : ℕ → ℕ → PayDraw) (L : LoanRow) (dr : ℕ → PayDraw) (p : Payment)
    (hids : loans.countP (fun l => l.loan_id == 150) ≤ 1)
    (hp : p ∈ loan_payments L today dr) :
    ((generate_payments loans today oracle).countP
      (fun q => q.is_reversed) ≤ 1) ∧
    (p.is_reversed = true ↔
      L.loan_id = 150 ∧ p.scheduled_date = L.origination_date + 450) ∧
    (p.reversal_reason ≠ none ↔ p.is_reversed = true) ∧
    (p.is_reversed = true → p.reversal_reason = some reversal_reason_text) := by
  obtain ⟨m, -, hm⟩ : ∃ m, m ∈ List.range _ ∧ mkPayment L m (dr m) = some p := by
    simpa only [loan_payments, List.mem_filterMap] using hp
  obtain ⟨hid, hsched, hrev, hreason⟩ := mkPayment_fields hm
  refine ⟨?_, ?_, ?_, ?_⟩
  · unfold generate_payments
    apply flat_rev_le_one
    have hfil : (loans.filter fun l =>
        l.status == "ACTIVE" || l.status == "DEFAULTED").countP
          (fun l => l.loan_id == 150) ≤ 1 :=
      le_trans ((List.filter_sublist loans).countP_le _) hids
    have henum : ((loans.filter fun l =>
        l.status == "ACTIVE" || l.status == "DEFAULTED").enum).countP
          (fun kL => kL.2.loan_id == 150) =
        (loans.filter fun l =>
          l.status == "ACTIVE" || l.status == "DEFAULTED").countP
            (fun l => l.loan_id == 150) := by
      rw [List.enum_eq_enumFrom]
      conv_rhs => rw [← List.enumFrom_map_snd 0 (loans.filter fun l =>
        l.status == "ACTIVE" || l.status == "DEFAULTED")]
      rw [List.countP_map]
      rfl
    rw [henum]
    exact hfil
  · constructor
    · intro h
      obtain ⟨h150, h15⟩ := hrev.mp h
      subst h15
      exact ⟨h150, by rw [hsched]; norm_num⟩
    · rintro ⟨h150, hs⟩
      refine hrev.mpr ⟨h150, ?_⟩
      rw [hsched] at hs
      omega
  · rw [hreason]
    by_cases hc : L.loan_id = 150 ∧ m = 15
    · simp [hc, hrev]
    · simp [hc, hrev]
  · intro h
    rw [hreason, if_pos (hrev.mp h)]

/-- Witness for C7 (amended): the schedule of `loanRow150` (originated 481
days ago, so 16 scheduled months) contains the reversed month-15 payment. -/
theorem c7_reversal_amended_witness :
    ((generate_payments [loanRow150] 0 fun _ _ => onTimePayDraw).countP
      (fun q => q.is_reversed) ≤ 1) ∧
    (reversedPayment.is_reversed = true ↔
      loanRow150.loan_id = 150 ∧
      reversedPayment.scheduled_date =
        loanRow150.origination_date + 450) := by
  have hp : reversedPayment ∈ loan_payments loanRow150 0 fun _ => onTimePayDraw := by
    simp only [loan_payments]
    exact List.mem_filterMap.mpr ⟨15, by decide, mkPayment_eval_15⟩
  have h := c7_reversal_amended [loanRow150] 0 (fun _ _ => onTimePayDraw)
    loanRow150 (fun _ => onTimePayDraw) reversedPayment (by decide) hp
  exact ⟨h.1, h.2.1⟩

/-- Counterexample to C7: when loan 150 originates only 200 days before
generation (inside the -5y..-6m window of `fake.date_between`), its schedule
has 6 months and never reaches month 15, so the generated payment table
contains zero reversed rows, not exactly one. -/
theorem c7_reversal_counterexample :
    ((generate_payments [loanRow150Short] 0 fun _ _ => onTimePayDraw).countP
      (fun q => q.is_reversed)) = 0 ∧ (0 : ℕ) ≠ 1 := by
  refine ⟨?_, by decide⟩
  rw [List.countP_eq_zero]
  intro p hp
  simp only [generate_payments, List.filter, List.enum_eq_enumFrom,
    List.enumFrom, List.flatMap_cons, List.flatMap_nil, List.append_nil] at hp
  simp only [loan_payments, List.mem_filterMap, List.mem_range] at hp
  obtain ⟨m, hm6, hm⟩ := hp
  rw [show min (((0 - loanRow150Short.origination_date).fdiv 30).toNat) 36 = 6
    from rfl] at hm6
  intro hrev
  have h15 := ((mkPayment_fields hm).2.2.1.mp hrev).2
  omega

end Banking
